import Mathlib

/-!
Verification development for the COVID data pipeline
(`covid_data_processing_utils.py` and `covid_dashboard_app.py`).

The pandas dataframes are embedded as lists of rows.  Numeric (float)
columns are embedded by `FVal`: an explicit NaN (pandas uses NaN both for
"missing value" and as the result of undefined arithmetic), signed
infinities (float division of a nonzero value by zero), and finite values
represented by exact rationals.  The arithmetic on finite values is exact
rather than rounded; all claims under study concern definedness
(NaN / infinity versus finite) and exact small constants, so rounding is
irrelevant to them.
-/

/-- Embedding of a pandas float cell: NaN (missing / undefined), the two
infinities, or a finite value (an exact rational). -/
inductive FVal where
  | nan
  | inf
  | neginf
  | num (q : ℚ)
deriving DecidableEq

/-- NaN test (pandas `isna` on a float cell). -/
def FVal.isNan : FVal → Bool
  | .nan => true
  | _ => false

/-- IEEE-style `>` on float cells: any comparison with NaN is false. -/
def fgt : FVal → FVal → Bool
  | .nan, _ => false
  | _, .nan => false
  | .inf, .inf => false
  | .inf, _ => true
  | .neginf, _ => false
  | .num _, .inf => false
  | .num _, .neginf => true
  | .num a, .num b => decide (b < a)

/-- IEEE-style float division as performed by pandas/numpy on float
columns: NaN propagates; a nonzero finite value divided by (positive)
zero gives a signed infinity; 0/0 gives NaN. -/
def fdiv : FVal → FVal → FVal
  | .nan, _ => .nan
  | _, .nan => .nan
  | .inf, .inf => .nan
  | .inf, .neginf => .nan
  | .neginf, .inf => .nan
  | .neginf, .neginf => .nan
  | .inf, .num q => if q < 0 then .neginf else .inf
  | .neginf, .num q => if q < 0 then .inf else .neginf
  | .num _, .inf => .num 0
  | .num _, .neginf => .num 0
  | .num a, .num b =>
      if b = 0 then
        if a = 0 then .nan else if 0 < a then .inf else .neginf
      else .num (a / b)

/-- IEEE-style float multiplication (used for the `* 100` scaling):
NaN propagates; infinity times zero is NaN. -/
def fmul : FVal → FVal → FVal
  | .nan, _ => .nan
  | _, .nan => .nan
  | .inf, .inf => .inf
  | .inf, .neginf => .neginf
  | .neginf, .inf => .neginf
  | .neginf, .neginf => .inf
  | .inf, .num q => if q = 0 then .nan else if q < 0 then .neginf else .inf
  | .neginf, .num q => if q = 0 then .nan else if q < 0 then .inf else .neginf
  | .num q, .inf => if q = 0 then .nan else if q < 0 then .neginf else .inf
  | .num q, .neginf => if q = 0 then .nan else if q < 0 then .inf else .neginf
  | .num a, .num b => .num (a * b)

/-- `fillna(0)` on a float cell. -/
def fillZero (x : FVal) : FVal := if x.isNan then FVal.num 0 else x

/-- One row of the dataframe.  The fourteen base fields are the columns
projected by `load_raw_data` (`usecols=[...]`); `iso_code`, `location`
and `date` are always present in the source data, `continent` may be
missing (NaN on a string column, embedded as `none`), the count columns
are float columns.  The three derived fields are the columns added by
`clean_data`; they are `none` until that column assignment has run
(adding a column mutates the pandas frame, so the slot is part of the
row type). -/
structure Row where
  iso_code : String
  continent : Option String
  location : String
  date : ℕ
  total_cases : FVal
  new_cases : FVal
  total_deaths : FVal
  new_deaths : FVal
  icu_patients : FVal
  hosp_patients : FVal
  weekly_icu_admissions : FVal
  population : FVal
  people_vaccinated : FVal
  people_fully_vaccinated : FVal
  death_rate : Option FVal := none
  pct_vaccinated : Option FVal := none
  pct_fully_vaccinated : Option FVal := none
deriving DecidableEq

/-- `df = df[df['continent'].notna()].copy()` (line 78): keep the rows
whose continent is present. -/
def dropNoContinent (df : List Row) : List Row :=
  df.filter (fun r => r.continent.isSome)

/-- `df['death_rate'] = np.where(df['total_cases'] > 0,
df['total_deaths'] / df['total_cases'], np.nan)` (lines 81-85). -/
def assignDeathRate (df : List Row) : List Row :=
  df.map (fun r =>
    { r with
      death_rate := some (if fgt r.total_cases (FVal.num 0)
                          then fdiv r.total_deaths r.total_cases
                          else FVal.nan) })

/-- `df['pct_vaccinated'] = (df['people_vaccinated'] / df['population']) * 100`
(line 86). -/
def assignPctVaccinated (df : List Row) : List Row :=
  df.map (fun r =>
    { r with
      pct_vaccinated :=
        some (fmul (fdiv r.people_vaccinated r.population) (FVal.num 100)) })

/-- `df['pct_fully_vaccinated'] = (df['people_fully_vaccinated'] / df['population']) * 100`
(line 87). -/
def assignPctFullyVaccinated (df : List Row) : List Row :=
  df.map (fun r =>
    { r with
      pct_fully_vaccinated :=
        some (fmul (fdiv r.people_fully_vaccinated r.population) (FVal.num 100)) })

/-- `df[['hosp_patients', 'icu_patients']] = df[['hosp_patients',
'icu_patients']].fillna(0)` (line 90). -/
def fillnaHospIcu (df : List Row) : List Row :=
  df.map (fun r =>
    { r with hosp_patients := fillZero r.hosp_patients,
             icu_patients := fillZero r.icu_patients })

/-- `clean_data` (lines 76-92): drop aggregate rows, derive the three
metric columns, default the two patient-count columns. -/
def clean_data (df : List Row) : List Row :=
  fillnaHospIcu (assignPctFullyVaccinated (assignPctVaccinated
    (assignDeathRate (dropNoContinent df))))

/-- The per-row effect of `clean_data` on a row that survives the
continent filter (the composition of the four column operations). -/
def cleanRow (r : Row) : Row :=
  { r with
    death_rate :=
      some (if fgt r.total_cases (FVal.num 0)
            then fdiv r.total_deaths r.total_cases
            else FVal.nan),
    pct_vaccinated :=
      some (fmul (fdiv r.people_vaccinated r.population) (FVal.num 100)),
    pct_fully_vaccinated :=
      some (fmul (fdiv r.people_fully_vaccinated r.population) (FVal.num 100)),
    hosp_patients := fillZero r.hosp_patients,
    icu_patients := fillZero r.icu_patients }

/-- Errors surfaced by the loader.  `readFailed` stands for any failure
of `pd.read_csv` itself (missing file, unreadable file, missing
required column); `emptyDataset` is the
`ValueError("Loaded empty dataset")` raised on line 65. -/
inductive LoadErr where
  | readFailed
  | emptyDataset
deriving DecidableEq

/-- `load_raw_data` (lines 46-72), parameterised by the outcome of
`pd.read_csv` (the parsed file contents, or a read failure).  The
`except` block on lines 69-72 logs and re-raises, so every error
propagates to the caller unchanged; the only logic added by the
function itself is the emptiness check on lines 64-65. -/
def load_raw_data (readResult : Except LoadErr (List Row)) :
    Except LoadErr (List Row) :=
  match readResult with
  | .error e => .error e
  | .ok rows => if rows.isEmpty then .error .emptyDataset else .ok rows

/-- Last element of a column that does not count as missing
(`GroupBy.last` semantics: the last non-null entry of the column);
`dflt` is returned when every entry is missing. -/
def lastNonNull {α : Type} (null : α → Bool) (dflt : α) : List α → α
  | [] => dflt
  | x :: xs =>
      let r := lastNonNull null dflt xs
      if null r then (if null x then dflt else x) else r

/-- Missing test for an optional string column cell. -/
def isNullStr (x : Option String) : Bool := x.isNone

/-- Missing test for a derived float column cell: the column may not
exist yet (`none`) or hold NaN. -/
def isNullOptF (x : Option FVal) : Bool :=
  match x with
  | none => true
  | some v => v.isNan

/-- `GroupBy.last()` applied to one group: for every column, the last
non-null value of that column within the group (pandas computes the
last non-null entry of each column, so the result row need not coincide
with any single input row).  `iso_code`, `location` and `date` are
never-null columns, so their last entry is taken unconditionally. -/
def groupLast (rows : List Row) : Row :=
  { iso_code := (rows.map (fun r => r.iso_code)).getLastD ""
    continent := lastNonNull isNullStr none (rows.map (fun r => r.continent))
    location := (rows.map (fun r => r.location)).getLastD ""
    date := (rows.map (fun r => r.date)).getLastD 0
    total_cases := lastNonNull FVal.isNan FVal.nan (rows.map (fun r => r.total_cases))
    new_cases := lastNonNull FVal.isNan FVal.nan (rows.map (fun r => r.new_cases))
    total_deaths := lastNonNull FVal.isNan FVal.nan (rows.map (fun r => r.total_deaths))
    new_deaths := lastNonNull FVal.isNan FVal.nan (rows.map (fun r => r.new_deaths))
    icu_patients := lastNonNull FVal.isNan FVal.nan (rows.map (fun r => r.icu_patients))
    hosp_patients := lastNonNull FVal.isNan FVal.nan (rows.map (fun r => r.hosp_patients))
    weekly_icu_admissions :=
      lastNonNull FVal.isNan FVal.nan (rows.map (fun r => r.weekly_icu_admissions))
    population := lastNonNull FVal.isNan FVal.nan (rows.map (fun r => r.population))
    people_vaccinated :=
      lastNonNull FVal.isNan FVal.nan (rows.map (fun r => r.people_vaccinated))
    people_fully_vaccinated :=
      lastNonNull FVal.isNan FVal.nan (rows.map (fun r => r.people_fully_vaccinated))
    death_rate := lastNonNull isNullOptF none (rows.map (fun r => r.death_rate))
    pct_vaccinated := lastNonNull isNullOptF none (rows.map (fun r => r.pct_vaccinated))
    pct_fully_vaccinated :=
      lastNonNull isNullOptF none (rows.map (fun r => r.pct_fully_vaccinated)) }

/-- Lexicographic comparison of character lists by code point. -/
def strLtList : List Char → List Char → Bool
  | [], [] => false
  | [], _ :: _ => true
  | _ :: _, [] => false
  | a :: as, b :: bs =>
      if a.val < b.val then true
      else if b.val < a.val then false
      else strLtList as bs

/-- Python string comparison: lexicographic by code point (the order
pandas uses when sorting string group keys). -/
def strLt (a b : String) : Bool := strLtList a.data b.data

/-- Insertion step of the ascending sort of the group keys
(`groupby(sort=True)` orders the groups by key). -/
def insertAsc (x : String) : List String → List String
  | [] => [x]
  | y :: ys => if strLt x y then x :: y :: ys else y :: insertAsc x ys

/-- Ascending sort of the group keys. -/
def sortAsc : List String → List String
  | [] => []
  | x :: xs => insertAsc x (sortAsc xs)

/-- The group keys of `df.groupby('location')`: the distinct values of
the `location` column, in ascending key order (the groupby default
`sort=True`). -/
def groupKeys (df : List Row) : List String :=
  sortAsc (df.map (fun r => r.location)).dedup

/-- `df.groupby('location').last()` (line 98): one row per distinct
location, keyed by the location, each row aggregated column-wise by
`groupLast` over that location's rows in file order. -/
def groupbyLast (df : List Row) : List (String × Row) :=
  (groupKeys df).map
    (fun k => (k, groupLast (df.filter (fun r => r.location == k))))

/-- The sort key of line 98: the `total_cases` column of the grouped
frame. -/
def keyTC (p : String × Row) : FVal := p.2.total_cases

/-- Insertion step of the descending stable sort on `total_cases`:
the new element passes every strictly greater key and lands before the
first element whose key is not strictly greater, so equal keys keep
their relative order. -/
def insertDescTC (x : String × Row) :
    List (String × Row) → List (String × Row)
  | [] => [x]
  | y :: ys => if fgt (keyTC y) (keyTC x)
               then y :: insertDescTC x ys
               else x :: y :: ys

/-- Descending insertion sort on `total_cases`, modelling the sort of
line 98 on the non-null keys.  The code's `sort_values` default is
numpy quicksort (introsort), which fixes no order for equal keys once
the frame has 16 or more non-null entries; this model fixes the tie
order to the stable one (the behaviour numpy shows below its
16-element insertion-sort cutoff, composed with pandas's double
reversal for `ascending=False`).  The tie order is therefore a
modelling choice, not a guarantee of the program: only conclusions
that are insensitive to the order of equal keys (membership,
permutation, descending sortedness) transfer to the code. -/
def sortDescTC : List (String × Row) → List (String × Row)
  | [] => []
  | x :: xs => insertDescTC x (sortDescTC xs)

/-- Embeds `.sort_values('total_cases', ascending=False)` (line 98):
rows with a null sort key are moved to the end in their original order
(`na_position='last'`), the rest are sorted descending by
`total_cases`.  As with `sortDescTC`, the relative order of equal keys
is fixed by the model but not guaranteed by the code's quicksort-based
sort. -/
def sortValuesDescTC (l : List (String × Row)) : List (String × Row) :=
  sortDescTC (l.filter (fun p => !(keyTC p).isNan))
    ++ l.filter (fun p => (keyTC p).isNan)

/-- `load_processed_data` (lines 96-99), parameterised like
`load_raw_data` by the outcome of reading the file: clean the raw
frame, then build the latest-per-location view. -/
def load_processed_data (readResult : Except LoadErr (List Row)) :
    Except LoadErr (List Row × List (String × Row)) :=
  match load_raw_data readResult with
  | .error e => .error e
  | .ok rows =>
      let df := clean_data rows
      let latest := sortValuesDescTC (groupbyLast df)
      .ok (df, latest)

/-- A filesystem path, embedded as its list of components. -/
abbrev PathT := List String

/-- `get_data_path` (lines 26-42), parameterised by the filesystem
existence test and by the two anchor directories (the directory of the
module file and the current working directory).  The
`FileNotFoundError` raised on line 39 is caught by the handler on
lines 40-42, which returns the relative fallback path
`Path("data") / "owid-covid-data.csv"`, so the function never raises
to its caller. -/
def get_data_path (pathExists : PathT → Bool)
    (scriptDir cwd : PathT) : PathT :=
  let p1 := scriptDir ++ ["data", "owid-covid-data.csv"]
  if pathExists p1 then p1
  else
    let p2 := cwd ++ ["data", "owid-covid-data.csv"]
    if pathExists p2 then p2
    else ["data", "owid-covid-data.csv"]

/-- The command-line flags of `covid_dashboard_app.py`
(`--download`, `--dashboard`, `--display <country>`). -/
structure Args where
  download : Bool
  dashboard : Bool
  display : Option String
deriving DecidableEq

/-- The environment a run of the script encounters: whether
`data/owid-covid-data.csv` exists relative to the working directory at
module load, whether a forced download would succeed, the outcome of
reading the CSV, whether launching streamlit would succeed, and
whether the user interrupts the run. -/
structure Env where
  dataFileExists : Bool
  downloadOk : Bool
  readResult : Except LoadErr (List Row)
  dashboardLaunchOk : Bool
  interrupted : Bool

/-- Observable outcome of one process run: the exit code, whether
`argparse` ran (any command-line flag was processed), and whether the
downloader was entered. -/
structure Trace where
  exitCode : ℕ
  argsParsed : Bool
  downloadAttempted : Bool
deriving DecidableEq

/-- One run of `covid_dashboard_app.py`.  Control flow of the source:
the module-level check (lines 31-36) calls `sys.exit(1)` before
anything else when the working-directory data file is missing; the
`__main__` guard (lines 133-141) maps a `KeyboardInterrupt` to
`sys.exit(0)` (line 138) and any other uncaught exception to
`sys.exit(1)`; inside `main` (lines 97-131), a failed forced download
exits 1 (line 54), a failed `load_processed_data` exits 1 (line 112),
a failed streamlit launch exits 1 (line 120), and every other path
returns normally (exit 0).  An interrupt is modelled at its earliest
possible point, before argument parsing; for the exit code its timing
is irrelevant, since the handler is the same wherever it fires. -/
def runScript (env : Env) (args : Args) : Trace :=
  if env.dataFileExists = false then
    { exitCode := 1, argsParsed := false, downloadAttempted := false }
  else if env.interrupted = true then
    { exitCode := 0, argsParsed := false, downloadAttempted := false }
  else if args.download = true ∧ env.downloadOk = false then
    { exitCode := 1, argsParsed := true, downloadAttempted := true }
  else
    match load_processed_data env.readResult with
    | .error _ =>
        { exitCode := 1, argsParsed := true, downloadAttempted := args.download }
    | .ok _ =>
        if args.dashboard then
          if env.dashboardLaunchOk then
            { exitCode := 0, argsParsed := true, downloadAttempted := args.download }
          else
            { exitCode := 1, argsParsed := true, downloadAttempted := args.download }
        else
          { exitCode := 0, argsParsed := true, downloadAttempted := args.download }

/-- A heap of pandas dataframe objects, for the aliasing claim about
`clean_data`: a reference is an index into the heap. -/
abbrev Heap := List (List Row)

/-- Dereference (a missing reference reads as the empty frame; the
claims only use live references). -/
def readRef (h : Heap) (r : ℕ) : List Row := h.getD r []

/-- In-place update of the object a reference points to. -/
def writeRef (h : Heap) (r : ℕ) (df : List Row) : Heap := h.set r df

/-- `clean_data` as it acts on the object heap.  Line 78 builds a fresh
object (`df[df['continent'].notna()].copy()`) and rebinds the local
`df` to it; the four column assignments of lines 81-90 then mutate
that fresh object in place.  Returns the reference to the new object
and the final heap. -/
def clean_data_heap (h : Heap) (r0 : ℕ) : ℕ × Heap :=
  let r1 := h.length
  let h1 := h ++ [dropNoContinent (readRef h r0)]
  let h2 := writeRef h1 r1 (assignDeathRate (readRef h1 r1))
  let h3 := writeRef h2 r1 (assignPctVaccinated (readRef h2 r1))
  let h4 := writeRef h3 r1 (assignPctFullyVaccinated (readRef h3 r1))
  let h5 := writeRef h4 r1 (fillnaHospIcu (readRef h4 r1))
  (r1, h5)

/-- Modelled from the spec (claim side, for comparison with the code):
the record the aggregation is claimed to select — the row with the
maximum observation date for the entity, ties broken by input order
(the last such row wins). -/
def specMaxDateRecord (rows : List Row) : Option Row :=
  rows.foldl
    (fun acc r =>
      match acc with
      | none => some r
      | some b => if b.date ≤ r.date then some r else some b)
    none

/-- A base row with every count column missing, used to build the
concrete test frames below. -/
def baseRow : Row :=
  { iso_code := "AAA"
    continent := some "Asia"
    location := "Alpha"
    date := 0
    total_cases := FVal.nan
    new_cases := FVal.nan
    total_deaths := FVal.nan
    new_deaths := FVal.nan
    icu_patients := FVal.nan
    hosp_patients := FVal.nan
    weekly_icu_admissions := FVal.nan
    population := FVal.nan
    people_vaccinated := FVal.nan
    people_fully_vaccinated := FVal.nan }

/-- Entity X observed on day 2 with 20 cases, earlier in the file than
its day-1 row: the file is not sorted by date. -/
def rowXday2 : Row :=
  { baseRow with location := "X", iso_code := "X", date := 2,
                 total_cases := FVal.num 20 }

/-- Entity X observed on day 1 with 10 cases, last in file order. -/
def rowXday1 : Row :=
  { baseRow with location := "X", iso_code := "X", date := 1,
                 total_cases := FVal.num 10 }

/-- The two-row frame for the latest-per-entity counterexample. -/
def dfC1 : List Row := [rowXday2, rowXday1]

/-- A row with zero population and 250 people vaccinated. -/
def rowPopZero : Row :=
  { baseRow with population := FVal.num 0,
                 people_vaccinated := FVal.num 250 }

/-- A row with population 1000 and 250 people vaccinated. -/
def rowPop1000 : Row :=
  { baseRow with population := FVal.num 1000,
                 people_vaccinated := FVal.num 250 }

/-- A row with 100 cumulative cases and 5 cumulative deaths. -/
def rowCases100 : Row :=
  { baseRow with total_cases := FVal.num 100,
                 total_deaths := FVal.num 5 }

/-- Three single-row entities with cumulative cases 50, 200 and 10. -/
def dfThree : List Row :=
  [ { baseRow with location := "A", iso_code := "A", total_cases := FVal.num 50 },
    { baseRow with location := "B", iso_code := "B", total_cases := FVal.num 200 },
    { baseRow with location := "C", iso_code := "C", total_cases := FVal.num 10 } ]

/-! ## Basic lemmas about the embedded operations -/

theorem headD_mem {α : Type} (d : α) {l : List α} (h : l ≠ []) : l.headD d ∈ l := by
  cases l with
  | nil => exact absurd rfl h
  | cons a as => exact List.mem_cons_self a as

theorem isNan_eq_true_iff {v : FVal} : v.isNan = true ↔ v = FVal.nan := by
  cases v <;> simp [FVal.isNan]

theorem fillZero_not_nan (x : FVal) : (fillZero x).isNan = false := by
  cases x <;> simp [fillZero, FVal.isNan]

theorem fgt_asymm {a b : FVal} (h : fgt a b = true) : fgt b a = false := by
  cases a <;> cases b <;> simp_all [fgt]
  exact le_of_lt h

theorem fgt_false_trans {a b c : FVal} (hb : b.isNan = false)
    (h1 : fgt b a = false) (h2 : fgt c b = false) : fgt c a = false := by
  cases a <;> cases b <;> cases c <;> simp_all [fgt, FVal.isNan]
  exact le_trans h2 h1

theorem clean_data_eq_map (df : List Row) :
    clean_data df = (df.filter (fun r => r.continent.isSome)).map cleanRow := by
  simp only [clean_data, fillnaHospIcu, assignPctFullyVaccinated, assignPctVaccinated,
    assignDeathRate, dropNoContinent, List.map_map]
  rfl

theorem mem_clean_data {df : List Row} {r : Row} (h : r ∈ clean_data df) :
    ∃ r0, r0 ∈ df ∧ r0.continent.isSome = true ∧ r = cleanRow r0 := by
  rw [clean_data_eq_map] at h
  obtain ⟨r0, hr0, hr⟩ := List.mem_map.mp h
  exact ⟨r0, (List.mem_filter.mp hr0).1, (List.mem_filter.mp hr0).2, hr.symm⟩


/-! ## Lemmas about the aggregation and the snapshot sort -/

theorem insertAsc_perm (x : String) (l : List String) :
    List.Perm (insertAsc x l) (x :: l) := by
  induction l with
  | nil => exact List.Perm.refl _
  | cons y ys ih =>
    simp only [insertAsc]
    by_cases h : strLt x y = true
    · rw [if_pos h]
    · rw [if_neg h]
      exact (ih.cons y).trans (List.Perm.swap x y ys)

theorem sortAsc_perm (l : List String) : List.Perm (sortAsc l) l := by
  induction l with
  | nil => exact List.Perm.refl _
  | cons x xs ih => exact (insertAsc_perm x (sortAsc xs)).trans (ih.cons x)

theorem groupKeys_nodup (df : List Row) : (groupKeys df).Nodup :=
  ((sortAsc_perm _).nodup_iff).mpr (List.nodup_dedup _)

theorem mem_groupKeys {df : List Row} {k : String} :
    k ∈ groupKeys df ↔ k ∈ df.map (fun r => r.location) :=
  ((sortAsc_perm _).mem_iff).trans List.mem_dedup

theorem groupbyLast_map_fst (df : List Row) :
    (groupbyLast df).map Prod.fst = groupKeys df := by
  rw [groupbyLast, List.map_map]
  exact List.map_id _

theorem mem_groupbyLast {df : List Row} {loc : String} {r : Row}
    (h : (loc, r) ∈ groupbyLast df) :
    r = groupLast (df.filter (fun x => x.location == loc)) := by
  obtain ⟨k, hk, hkeq⟩ := List.mem_map.mp h
  cases hkeq
  rfl

theorem insertDescTC_perm (x : String × Row) (l : List (String × Row)) :
    List.Perm (insertDescTC x l) (x :: l) := by
  induction l with
  | nil => exact List.Perm.refl _
  | cons y ys ih =>
    simp only [insertDescTC]
    by_cases h : fgt (keyTC y) (keyTC x) = true
    · rw [if_pos h]
      exact (ih.cons y).trans (List.Perm.swap x y ys)
    · rw [if_neg h]

theorem sortDescTC_perm (l : List (String × Row)) :
    List.Perm (sortDescTC l) l := by
  induction l with
  | nil => exact List.Perm.refl _
  | cons x xs ih => exact (insertDescTC_perm x (sortDescTC xs)).trans (ih.cons x)

theorem pairwise_insertDescTC {x : String × Row} {l : List (String × Row)}
    (hl : ∀ p ∈ l, (keyTC p).isNan = false)
    (h : l.Pairwise (fun a b => fgt (keyTC b) (keyTC a) = false)) :
    (insertDescTC x l).Pairwise (fun a b => fgt (keyTC b) (keyTC a) = false) := by
  induction l with
  | nil => simp [insertDescTC]
  | cons y ys ih =>
    simp only [insertDescTC]
    rcases List.pairwise_cons.mp h with ⟨hy, hys⟩
    by_cases hc : fgt (keyTC y) (keyTC x) = true
    · rw [if_pos hc]
      refine List.pairwise_cons.mpr
        ⟨?_, ih (fun p hp => hl p (List.mem_cons_of_mem y hp)) hys⟩
      intro z hz
      rcases List.mem_cons.mp ((insertDescTC_perm x ys).mem_iff.mp hz) with hzx | hzys
      · subst hzx
        exact fgt_asymm hc
      · exact hy z hzys
    · rw [if_neg hc]
      have hcx : fgt (keyTC y) (keyTC x) = false := by
        cases hfgt : fgt (keyTC y) (keyTC x)
        · rfl
        · exact absurd hfgt hc
      refine List.pairwise_cons.mpr ⟨?_, h⟩
      intro z hz
      rcases List.mem_cons.mp hz with hzy | hzys
      · subst hzy
        exact hcx
      · exact fgt_false_trans (hl y (List.mem_cons_self y ys)) hcx (hy z hzys)

theorem pairwise_sortDescTC {l : List (String × Row)}
    (hl : ∀ p ∈ l, (keyTC p).isNan = false) :
    (sortDescTC l).Pairwise (fun a b => fgt (keyTC b) (keyTC a) = false) := by
  induction l with
  | nil => simp [sortDescTC]
  | cons x xs ih =>
    simp only [sortDescTC]
    apply pairwise_insertDescTC
    · intro p hp
      exact hl p (List.mem_cons_of_mem x ((sortDescTC_perm xs).mem_iff.mp hp))
    · exact ih (fun p hp => hl p (List.mem_cons_of_mem x hp))

theorem filter_insertDescTC_of_key {q : ℚ} {x : String × Row}
    {l : List (String × Row)} (hx : keyTC x = FVal.num q) :
    (insertDescTC x l).filter (fun p => decide (keyTC p = FVal.num q))
      = x :: l.filter (fun p => decide (keyTC p = FVal.num q)) := by
  induction l with
  | nil => simp [insertDescTC, hx]
  | cons y ys ih =>
    simp only [insertDescTC]
    by_cases hc : fgt (keyTC y) (keyTC x) = true
    · rw [if_pos hc]
      have hyq : (keyTC y = FVal.num q) = False := by
        simp only [eq_iff_iff, iff_false]
        intro hyq
        rw [hyq, hx] at hc
        simp [fgt] at hc
      simp [List.filter_cons, hyq, ih]
    · rw [if_neg hc]
      simp [List.filter_cons, hx]

theorem filter_insertDescTC_of_ne {q : ℚ} {x : String × Row}
    {l : List (String × Row)} (hx : ¬ keyTC x = FVal.num q) :
    (insertDescTC x l).filter (fun p => decide (keyTC p = FVal.num q))
      = l.filter (fun p => decide (keyTC p = FVal.num q)) := by
  induction l with
  | nil => simp [insertDescTC, hx]
  | cons y ys ih =>
    simp only [insertDescTC]
    by_cases hc : fgt (keyTC y) (keyTC x) = true
    · rw [if_pos hc]
      simp only [List.filter_cons, ih]
    · rw [if_neg hc]
      simp [List.filter_cons, hx]

theorem filter_sortDescTC (q : ℚ) (l : List (String × Row)) :
    (sortDescTC l).filter (fun p => decide (keyTC p = FVal.num q))
      = l.filter (fun p => decide (keyTC p = FVal.num q)) := by
  induction l with
  | nil => rfl
  | cons x xs ih =>
    simp only [sortDescTC]
    by_cases hx : keyTC x = FVal.num q
    · rw [filter_insertDescTC_of_key hx, ih]
      simp [List.filter_cons, hx]
    · rw [filter_insertDescTC_of_ne hx, ih]
      simp [List.filter_cons, hx]

theorem sortValuesDescTC_perm (l : List (String × Row)) :
    List.Perm (sortValuesDescTC l) l := by
  unfold sortValuesDescTC
  have h2 : (l.filter fun p => (keyTC p).isNan)
      = l.filter fun p => !(!(keyTC p).isNan) := by
    apply List.filter_congr
    intro a _
    simp
  rw [h2]
  exact ((sortDescTC_perm _).append_right _).trans
    (List.filter_append_perm (fun p => !(keyTC p).isNan) l)

theorem pairwise_sortValuesDescTC (l : List (String × Row)) :
    (sortValuesDescTC l).Pairwise (fun a b => fgt (keyTC b) (keyTC a) = false) := by
  unfold sortValuesDescTC
  rw [List.pairwise_append]
  refine ⟨?_, ?_, ?_⟩
  · apply pairwise_sortDescTC
    intro p hp
    have := (List.mem_filter.mp hp).2
    simpa using this
  · have hnan : ∀ p ∈ l.filter (fun p => (keyTC p).isNan), keyTC p = FVal.nan := by
      intro p hp
      exact isNan_eq_true_iff.mp (List.mem_filter.mp hp).2
    apply List.pairwise_iff_forall_sublist.mpr
    intro a b hab
    have hb : keyTC b = FVal.nan := hnan b (hab.subset (by simp))
    rw [hb]
    cases keyTC a <;> rfl
  · intro a _ b hb
    have hbn : keyTC b = FVal.nan :=
      isNan_eq_true_iff.mp (List.mem_filter.mp hb).2
    rw [hbn]
    cases keyTC a <;> rfl

theorem filter_sortValuesDescTC (q : ℚ) (l : List (String × Row)) :
    (sortValuesDescTC l).filter (fun p => decide (keyTC p = FVal.num q))
      = l.filter (fun p => decide (keyTC p = FVal.num q)) := by
  unfold sortValuesDescTC
  rw [List.filter_append, filter_sortDescTC, List.filter_filter, List.filter_filter]
  have hnil : l.filter (fun a => decide (keyTC a = FVal.num q) && (keyTC a).isNan)
      = [] := by
    rw [List.filter_eq_nil_iff]
    intro a _
    by_cases h : keyTC a = FVal.num q
    · simp [h, FVal.isNan]
    · simp [h]
  rw [hnil, List.append_nil]
  apply List.filter_congr
  intro a _
  by_cases h : keyTC a = FVal.num q
  · simp [h, FVal.isNan]
  · simp [h]

theorem load_processed_data_ok {rows df : List Row}
    {snap : List (String × Row)}
    (h : load_processed_data (.ok rows) = .ok (df, snap)) :
    df = clean_data rows
      ∧ snap = sortValuesDescTC (groupbyLast (clean_data rows))
      ∧ rows ≠ [] := by
  cases rows with
  | nil => simp [load_processed_data, load_raw_data] at h
  | cons a as =>
    simp only [load_processed_data, load_raw_data, List.isEmpty_cons,
      Bool.false_eq_true, if_false, Except.ok.injEq, Prod.mk.injEq] at h
    exact ⟨h.1.symm, h.2.symm, by simp⟩

/-! ## Claims -/

/-- C1 (counterexample): with entity X holding rows (date 2, cases 20)
then (date 1, cases 10) in file order, the snapshot record for X
carries 10 cases — the last row in file order — while the record with
the maximum observation date carries 20 cases.  The claim that the
snapshot holds the maximum-date record is therefore false on this
input. -/
theorem C1_counterexample :
    (load_processed_data (.ok dfC1)).map
        (fun pr => pr.2.map (fun p => p.2.total_cases)) = .ok [FVal.num 10]
  ∧ (specMaxDateRecord ((clean_data dfC1).filter (fun r => r.location == "X"))).map
        (fun r => r.total_cases) = some (FVal.num 20)
  ∧ FVal.num 10 ≠ FVal.num 20 :=
  ⟨rfl, rfl, by decide⟩

/-- C1 (amended): the snapshot produced by `load_processed_data`
contains exactly one record per entity of the cleaned Dataset (its
keys are exactly the distinct cleaned locations, each once), and each
field of that record is the last non-absent value of that field among
the entity's rows in file order (pandas `GroupBy.last` semantics) —
not necessarily the record with the maximum observation date. -/
theorem C1_latest_is_columnwise_last (rows df : List Row)
    (snap : List (String × Row))
    (h : load_processed_data (.ok rows) = .ok (df, snap)) :
    (snap.map Prod.fst).Nodup
  ∧ (∀ loc, loc ∈ snap.map Prod.fst ↔ loc ∈ df.map (fun r => r.location))
  ∧ ∀ loc r, (loc, r) ∈ snap →
      r = groupLast (df.filter (fun x => x.location == loc)) := by
  obtain ⟨hdf, hsnap, -⟩ := load_processed_data_ok h
  subst hdf
  subst hsnap
  have hperm := sortValuesDescTC_perm (groupbyLast (clean_data rows))
  have hmap := hperm.map Prod.fst
  refine ⟨?_, ?_, ?_⟩
  · exact (hmap.nodup_iff).mpr
      (by rw [groupbyLast_map_fst]; exact groupKeys_nodup _)
  · intro loc
    rw [hmap.mem_iff, groupbyLast_map_fst]
    exact mem_groupKeys
  · intro loc r hr
    exact mem_groupbyLast (hperm.mem_iff.mp hr)

/-- C1 (witness): the amended theorem applied to the concrete two-row
frame. -/
theorem C1_witness :
    ((sortValuesDescTC (groupbyLast (clean_data dfC1))).map Prod.fst).Nodup
  ∧ (∀ loc, loc ∈ (sortValuesDescTC (groupbyLast (clean_data dfC1))).map Prod.fst
      ↔ loc ∈ (clean_data dfC1).map (fun r => r.location))
  ∧ ∀ loc r, (loc, r) ∈ sortValuesDescTC (groupbyLast (clean_data dfC1)) →
      r = groupLast ((clean_data dfC1).filter (fun x => x.location == loc)) :=
  C1_latest_is_columnwise_last dfC1 (clean_data dfC1)
    (sortValuesDescTC (groupbyLast (clean_data dfC1))) rfl

/-- C2 (counterexample): a cleaned row with population 0 and 250
people vaccinated gets percent-vaccinated equal to positive infinity
(float division of a positive value by zero), not "no value" (NaN), so
the claim that a zero population always yields "no value" is false. -/
theorem C2_counterexample :
    (clean_data [rowPopZero]).map (fun r => r.pct_vaccinated) = [some FVal.inf]
  ∧ FVal.inf ≠ FVal.nan :=
  ⟨rfl, by decide⟩

/-- C2 (amended): for every cleaned record, percent-vaccinated (and
percent-fully-vaccinated) equals (vaccinated / population) × 100 when
the population is present and nonzero; it is "no value" (NaN) when the
population is absent, and also when the population is zero while the
vaccinated count is absent or zero; but when the population is zero
and the vaccinated count is positive the result is positive infinity,
not "no value". -/
theorem C2_vaccination_percent (df : List Row) (r : Row)
    (h : r ∈ clean_data df) :
    (∀ p v, r.population = FVal.num p → p ≠ 0 →
        r.people_vaccinated = FVal.num v →
        r.pct_vaccinated = some (FVal.num (v / p * 100)))
  ∧ (∀ p v, r.population = FVal.num p → p ≠ 0 →
        r.people_fully_vaccinated = FVal.num v →
        r.pct_fully_vaccinated = some (FVal.num (v / p * 100)))
  ∧ (r.population = FVal.nan →
        r.pct_vaccinated = some FVal.nan
          ∧ r.pct_fully_vaccinated = some FVal.nan)
  ∧ (r.population = FVal.num 0 → r.people_vaccinated = FVal.nan →
        r.pct_vaccinated = some FVal.nan)
  ∧ (r.population = FVal.num 0 → r.people_vaccinated = FVal.num 0 →
        r.pct_vaccinated = some FVal.nan)
  ∧ (∀ v, r.population = FVal.num 0 → r.people_vaccinated = FVal.num v →
        0 < v → r.pct_vaccinated = some FVal.inf)
  ∧ (r.population = FVal.num 0 → r.people_fully_vaccinated = FVal.nan →
        r.pct_fully_vaccinated = some FVal.nan)
  ∧ (r.population = FVal.num 0 → r.people_fully_vaccinated = FVal.num 0 →
        r.pct_fully_vaccinated = some FVal.nan)
  ∧ (∀ v, r.population = FVal.num 0 → r.people_fully_vaccinated = FVal.num v →
        0 < v → r.pct_fully_vaccinated = some FVal.inf) := by
  obtain ⟨r0, hmem, hcont, hr⟩ := mem_clean_data h
  subst hr
  refine ⟨?_, ?_, ?_, ?_, ?_, ?_, ?_, ?_, ?_⟩
  · intro p v hp hp0 hv
    simp only [cleanRow] at hp hv ⊢
    rw [hp, hv]
    simp [fdiv, fmul, hp0]
  · intro p v hp hp0 hv
    simp only [cleanRow] at hp hv ⊢
    rw [hp, hv]
    simp [fdiv, fmul, hp0]
  · intro hp
    simp only [cleanRow] at hp ⊢
    rw [hp]
    constructor
    · cases hv : r0.people_vaccinated <;> simp [fdiv, fmul]
    · cases hv : r0.people_fully_vaccinated <;> simp [fdiv, fmul]
  · intro hp hv
    simp only [cleanRow] at hp hv ⊢
    rw [hp, hv]
    simp [fdiv, fmul]
  · intro hp hv
    simp only [cleanRow] at hp hv ⊢
    rw [hp, hv]
    simp [fdiv, fmul]
  · intro v hp hv hv0
    simp only [cleanRow] at hp hv ⊢
    rw [hp, hv]
    norm_num [fdiv, fmul, ne_of_gt hv0, hv0]
  · intro hp hv
    simp only [cleanRow] at hp hv ⊢
    rw [hp, hv]
    simp [fdiv, fmul]
  · intro hp hv
    simp only [cleanRow] at hp hv ⊢
    rw [hp, hv]
    simp [fdiv, fmul]
  · intro v hp hv hv0
    simp only [cleanRow] at hp hv ⊢
    rw [hp, hv]
    norm_num [fdiv, fmul, ne_of_gt hv0, hv0]

/-- C2 (witness): population 1000 and 250 vaccinated give
(250 / 1000) × 100 (= 25) percent. -/
theorem C2_witness :
    ((clean_data [rowPop1000]).headD baseRow).pct_vaccinated
      = some (FVal.num (250 / 1000 * 100)) :=
  (C2_vaccination_percent [rowPop1000] _ (headD_mem baseRow (by decide))).1
    1000 250 rfl (by decide) rfl

/-- C3 (counterexample): a run that is interrupted by the user (with
the data file present and everything else healthy) exits with code 0
— the `KeyboardInterrupt` handler calls `sys.exit(0)` — not with code
1 as the claim states. -/
theorem C3_counterexample :
    runScript
        { dataFileExists := true, downloadOk := true,
          readResult := .ok [baseRow], dashboardLaunchOk := true,
          interrupted := true }
        { download := false, dashboard := false, display := none }
      = { exitCode := 0, argsParsed := false, downloadAttempted := false }
  ∧ (0 : ℕ) ≠ 1 :=
  ⟨rfl, by decide⟩

/-- C3 (amended): the process exit code is 0 on success, 1 on any
fatal error (missing data file, failed forced download, load failure,
dashboard launch failure), and 0 — not 1 — on user interrupt. -/
theorem C3_exit_codes (env : Env) (args : Args) :
    (env.dataFileExists = false → (runScript env args).exitCode = 1)
  ∧ (env.dataFileExists = true → env.interrupted = true →
        (runScript env args).exitCode = 0)
  ∧ (env.dataFileExists = true → env.interrupted = false →
        args.download = true → env.downloadOk = false →
        (runScript env args).exitCode = 1)
  ∧ (∀ e, env.dataFileExists = true → env.interrupted = false →
        (args.download = true → env.downloadOk = true) →
        load_processed_data env.readResult = .error e →
        (runScript env args).exitCode = 1)
  ∧ (∀ d, env.dataFileExists = true → env.interrupted = false →
        (args.download = true → env.downloadOk = true) →
        load_processed_data env.readResult = .ok d →
        args.dashboard = true → env.dashboardLaunchOk = false →
        (runScript env args).exitCode = 1)
  ∧ (∀ d, env.dataFileExists = true → env.interrupted = false →
        (args.download = true → env.downloadOk = true) →
        load_processed_data env.readResult = .ok d →
        (args.dashboard = true → env.dashboardLaunchOk = true) →
        (runScript env args).exitCode = 0) := by
  refine ⟨?_, ?_, ?_, ?_, ?_, ?_⟩
  · intro h1
    simp [runScript, h1]
  · intro h1 h2
    simp [runScript, h1, h2]
  · intro h1 h2 h3 h4
    simp [runScript, h1, h2, h3, h4]
  · intro e h1 h2 h3 h4
    have hcond : ¬ (args.download = true ∧ env.downloadOk = false) := by
      rintro ⟨hdl, hok⟩
      rw [h3 hdl] at hok
      simp at hok
    simp [runScript, h1, h2, hcond, h4]
  · intro d h1 h2 h3 h4 h5 h6
    have hcond : ¬ (args.download = true ∧ env.downloadOk = false) := by
      rintro ⟨hdl, hok⟩
      rw [h3 hdl] at hok
      simp at hok
    simp [runScript, h1, h2, hcond, h4, h5, h6]
  · intro d h1 h2 h3 h4 h5
    have hcond : ¬ (args.download = true ∧ env.downloadOk = false) := by
      rintro ⟨hdl, hok⟩
      rw [h3 hdl] at hok
      simp at hok
    by_cases hdash : args.dashboard = true
    · simp [runScript, h1, h2, hcond, h4, hdash, h5 hdash]
    · simp [runScript, h1, h2, hcond, h4, hdash]

/-- C3 (witness): a fully healthy, uninterrupted default run exits
with code 0. -/
theorem C3_witness :
    (runScript
        { dataFileExists := true, downloadOk := true,
          readResult := .ok [baseRow], dashboardLaunchOk := true,
          interrupted := false }
        { download := false, dashboard := false, display := none }).exitCode
      = 0 :=
  (C3_exit_codes _ _).2.2.2.2.2
    (clean_data [baseRow], sortValuesDescTC (groupbyLast (clean_data [baseRow])))
    rfl rfl (fun _ => rfl) rfl (fun _ => rfl)

/-- C4: for every cleaned record, the death-rate field equals
deaths/cases (IEEE float division) when cumulative cases > 0 — in
particular (deaths d, cases c) with 0 < c gives exactly d / c — and is
"no value" (NaN) when the cases are absent or not positive.  The
embedded computation is total, so no divide-by-zero fault can be
raised, and NaN is a value distinct from zero. -/
theorem C4_death_rate (df : List Row) (r : Row) (h : r ∈ clean_data df) :
    (∀ c, r.total_cases = FVal.num c → 0 < c →
        r.death_rate = some (fdiv r.total_deaths r.total_cases))
  ∧ (∀ c d, r.total_cases = FVal.num c → 0 < c →
        r.total_deaths = FVal.num d →
        r.death_rate = some (FVal.num (d / c)))
  ∧ (r.total_cases = FVal.nan → r.death_rate = some FVal.nan)
  ∧ (∀ c, r.total_cases = FVal.num c → c ≤ 0 →
        r.death_rate = some FVal.nan)
  ∧ FVal.nan ≠ FVal.num 0 := by
  obtain ⟨r0, hmem, hcont, hr⟩ := mem_clean_data h
  subst hr
  refine ⟨?_, ?_, ?_, ?_, by decide⟩
  · intro c hc hc0
    simp only [cleanRow] at hc ⊢
    rw [hc]
    simp [fgt, hc0]
  · intro c d hc hc0 hd
    simp only [cleanRow] at hc hd ⊢
    rw [hc, hd]
    simp [fgt, fdiv, hc0, ne_of_gt hc0]
  · intro hc
    simp only [cleanRow] at hc ⊢
    rw [hc]
    simp [fgt]
  · intro c hc hc0
    simp only [cleanRow] at hc ⊢
    rw [hc]
    simp [fgt, not_lt.mpr hc0]

/-- C4 (witness): 100 cases and 5 deaths give death rate 5 / 100
(= 0.05). -/
theorem C4_witness :
    ((clean_data [rowCases100]).headD baseRow).death_rate
      = some (FVal.num (5 / 100)) :=
  (C4_death_rate [rowCases100] _ (headD_mem baseRow (by decide))).2.1
    100 5 rfl (by decide) rfl

/-- C6: every record of the cleaned Dataset has a present continent
(rows with an absent continent are removed by the filter), and its
ICU-patient and hospital-patient fields are never absent: each equals
the original value with absent defaulted to zero (`fillna(0)`). -/
theorem C6_continent_and_fillna (df : List Row) (r : Row)
    (h : r ∈ clean_data df) :
    r.continent.isSome = true
  ∧ r.icu_patients.isNan = false
  ∧ r.hosp_patients.isNan = false
  ∧ ∃ r0, r0 ∈ df ∧ r.icu_patients = fillZero r0.icu_patients
      ∧ r.hosp_patients = fillZero r0.hosp_patients := by
  obtain ⟨r0, hmem, hcont, hr⟩ := mem_clean_data h
  subst hr
  exact ⟨hcont, fillZero_not_nan _, fillZero_not_nan _, r0, hmem, rfl, rfl⟩

/-- C6 (witness): the theorem applied to a one-row frame whose ICU and
hospital counts are absent. -/
theorem C6_witness :
    ((clean_data [baseRow]).headD baseRow).continent.isSome = true
  ∧ ((clean_data [baseRow]).headD baseRow).icu_patients.isNan = false
  ∧ ((clean_data [baseRow]).headD baseRow).hosp_patients.isNan = false
  ∧ ∃ r0, r0 ∈ [baseRow]
      ∧ ((clean_data [baseRow]).headD baseRow).icu_patients
          = fillZero r0.icu_patients
      ∧ ((clean_data [baseRow]).headD baseRow).hosp_patients
          = fillZero r0.hosp_patients :=
  C6_continent_and_fillna [baseRow] _ (headD_mem baseRow (by decide))

theorem readRef_append (h : Heap) (v : List Row) :
    readRef (h ++ [v]) h.length = v := by
  simp [readRef, List.getD_eq_getElem?_getD, List.getElem?_concat_length]

theorem readRef_append_lt (h : Heap) (v : List Row) {j : ℕ}
    (hj : j < h.length) : readRef (h ++ [v]) j = readRef h j := by
  simp [readRef, List.getD_eq_getElem?_getD, List.getElem?_append_left hj]

theorem readRef_set_ne (h : Heap) {i j : ℕ} (hij : i ≠ j) (v : List Row) :
    readRef (writeRef h i v) j = readRef h j := by
  simp [readRef, writeRef, List.getD_eq_getElem?_getD, List.getElem?_set_ne hij]

theorem readRef_set_same (h : Heap) (i : ℕ) (v : List Row)
    (hi : i < h.length) : readRef (writeRef h i v) i = v := by
  simp [readRef, writeRef, List.getD_eq_getElem?_getD,
    List.getElem?_set_eq_of_lt v hi]

/-- C7: `clean_data` does not mutate its input: on the object heap, the
frame the input reference points to is unchanged by the call, the
returned reference is a different (fresh) one, and it points to the
cleaned data.  The fresh copy made on line 78 is what every later
in-place column assignment mutates. -/
theorem C7_clean_data_no_mutation (h : Heap) (r0 : ℕ)
    (hr : r0 < h.length) :
    readRef (clean_data_heap h r0).2 r0 = readRef h r0
  ∧ (clean_data_heap h r0).1 ≠ r0
  ∧ readRef (clean_data_heap h r0).2 (clean_data_heap h r0).1
      = clean_data (readRef h r0) := by
  have hne : h.length ≠ r0 := ne_of_gt hr
  refine ⟨?_, ?_, ?_⟩
  · simp only [clean_data_heap]
    rw [readRef_set_ne _ hne, readRef_set_ne _ hne, readRef_set_ne _ hne,
      readRef_set_ne _ hne, readRef_append_lt _ _ hr]
  · exact hne
  · simp only [clean_data_heap]
    rw [readRef_append]
    rw [readRef_set_same _ _ _ (by simp [writeRef])]
    rw [readRef_set_same _ _ _ (by simp [writeRef])]
    rw [readRef_set_same _ _ _ (by simp [writeRef])]
    rw [readRef_set_same _ _ _ (by simp [writeRef])]
    rfl

/-- C7 (witness): the theorem applied to a one-object heap. -/
theorem C7_witness :
    readRef (clean_data_heap [[baseRow]] 0).2 0 = readRef [[baseRow]] 0
  ∧ (clean_data_heap [[baseRow]] 0).1 ≠ 0
  ∧ readRef (clean_data_heap [[baseRow]] 0).2 (clean_data_heap [[baseRow]] 0).1
      = clean_data (readRef [[baseRow]] 0) :=
  C7_clean_data_no_mutation [[baseRow]] 0 (by decide)

/-- C8: the raw load fails with the empty-dataset error exactly when a
successful read yields zero rows; a read failure propagates unchanged;
and a successful load returns the parsed rows exactly (no partial
success and no row skipping). -/
theorem C8_empty_dataset_error :
    load_raw_data (.ok ([] : List Row)) = .error LoadErr.emptyDataset
  ∧ (∀ rows df, load_raw_data (.ok rows) = .ok df ↔ rows ≠ [] ∧ df = rows)
  ∧ (∀ e, load_raw_data (.error e) = .error e)
  ∧ (∀ rows, rows ≠ [] → load_raw_data (.ok rows) = .ok rows) := by
  refine ⟨rfl, ?_, fun e => rfl, ?_⟩
  · intro rows df
    cases rows with
    | nil => simp [load_raw_data]
    | cons a as => simp [load_raw_data, eq_comm]
  · intro rows hne
    cases rows with
    | nil => exact absurd rfl hne
    | cons a as => simp [load_raw_data]

/-- C8 (witness): a one-row read loads successfully and unchanged. -/
theorem C8_witness : load_raw_data (.ok [baseRow]) = .ok [baseRow] :=
  C8_empty_dataset_error.2.2.2 [baseRow] (by decide)

/-- C9: `get_data_path` returns the install-relative candidate whenever
it exists (regardless of the working-directory candidate), otherwise
the working-directory candidate when that exists, and otherwise the
relative fallback path `data/owid-covid-data.csv` (which resolves
against the working directory); being a total function, it never
raises — the internal `FileNotFoundError` is caught on lines 40-42. -/
theorem C9_get_data_path (pathExists : PathT → Bool) (s c : PathT) :
    (pathExists (s ++ ["data", "owid-covid-data.csv"]) = true →
        get_data_path pathExists s c = s ++ ["data", "owid-covid-data.csv"])
  ∧ (pathExists (s ++ ["data", "owid-covid-data.csv"]) = false →
      pathExists (c ++ ["data", "owid-covid-data.csv"]) = true →
        get_data_path pathExists s c = c ++ ["data", "owid-covid-data.csv"])
  ∧ (pathExists (s ++ ["data", "owid-covid-data.csv"]) = false →
      pathExists (c ++ ["data", "owid-covid-data.csv"]) = false →
        get_data_path pathExists s c = ["data", "owid-covid-data.csv"]) := by
  refine ⟨?_, ?_, ?_⟩
  · intro h1
    simp [get_data_path, h1]
  · intro h1 h2
    simp [get_data_path, h1, h2]
  · intro h1 h2
    simp [get_data_path, h1, h2]

/-- C9 (witness): when only the install-relative candidate exists it is
chosen. -/
theorem C9_witness :
    get_data_path
        (fun p => decide (p = ["inst", "data", "owid-covid-data.csv"]))
        ["inst"] ["wd"]
      = ["inst"] ++ ["data", "owid-covid-data.csv"] :=
  (C9_get_data_path
      (fun p => decide (p = ["inst", "data", "owid-covid-data.csv"]))
      ["inst"] ["wd"]).1 (by decide)

/-- C10: when the working-directory data file is missing at module
load, the process exits with code 1 before `argparse` runs and before
the downloader can be entered, whatever the command-line flags and the
rest of the environment are — so the force-download flag can never
fetch the missing file. -/
theorem C10_missing_file_preempts_flags (downloadOk : Bool)
    (readResult : Except LoadErr (List Row))
    (dashboardLaunchOk interrupted : Bool) (args : Args) :
    runScript
        { dataFileExists := false, downloadOk := downloadOk,
          readResult := readResult, dashboardLaunchOk := dashboardLaunchOk,
          interrupted := interrupted }
        args
      = { exitCode := 1, argsParsed := false, downloadAttempted := false } :=
  rfl
